import Mathlib

/-!
Steward: verification of the core message model.

A shallow embedding of the steward repository's message data model and the
operations around it: the publisher delivery loop (`messageDeliverNats`), the
subscriber dispatch path (`subscriberHandler`), message validation and fan-out
(`newSubjectAndMessage`, `checkMessageToNodes`, `convertBytesToSAMs`), reply
construction (`newReplyMessage`), reply file naming (`selectFileNaming`),
signature verification (`verifySignature`) and the startup-folder reader
(`readStartupFolder`'s batch processing).

Go strings are Lean `String`s, byte slices are `List Nat` (`Option (List Nat)`
where the distinction nil / non-nil matters), Go maps are membership in lists
or `String → Option _` functions.  External effects (the NATS broker, the
file system, logging) are modelled by explicit environments and action traces.
-/

/-- Go's `type CommandOrEvent string` (early era of the code, `process.go`):
the subject's kind is carried as a string. -/
abbrev CommandOrEvent := String

/-- Go's `type Event string` (later era, the method table): ACK / NACK kind
of a method, carried as a string. -/
abbrev Event := String

/-- The `CommandACK` constant. -/
def CommandACK : String := "CommandACK"

/-- The `CommandNACK` constant. -/
def CommandNACK : String := "CommandNACK"

/-- The `EventACK` constant (used by both eras of the code). -/
def EventACK : String := "EventACK"

/-- The `EventNACK` constant (used by both eras of the code). -/
def EventNACK : String := "EventNACK"

/-- The `Message` struct.  Field order (positional in the constructor):
ToNode, ToNodes, FromNode, Method, MethodArgs, ArgSignature, Data,
ReplyMethod, ReplyMethodArgs, ACKTimeout, Retries, ReplyACKTimeout,
ReplyRetries, MethodTimeout, ReplyMethodTimeout, Directory, FileName,
IsReply, PreviousMessage.  `PreviousMessage` is a `*Message` in Go, hence
`Option Message` here (the recursion forces an inductive rather than a
structure).  `Data` is a `[]byte` whose nil / non-nil distinction the code
relies on, hence `Option (List Nat)`. -/
inductive Message : Type where
  | mk
      (ToNode : String)
      (ToNodes : List String)
      (FromNode : String)
      (Method : String)
      (MethodArgs : List String)
      (ArgSignature : List Nat)
      (Data : Option (List Nat))
      (ReplyMethod : String)
      (ReplyMethodArgs : List String)
      (ACKTimeout : Nat)
      (Retries : Nat)
      (ReplyACKTimeout : Nat)
      (ReplyRetries : Nat)
      (MethodTimeout : Int)
      (ReplyMethodTimeout : Int)
      (Directory : String)
      (FileName : String)
      (IsReply : Bool)
      (PreviousMessage : Option Message)
    : Message

/-- Field accessor: `message.ToNode`. -/
def Message.ToNode : Message → String
  | .mk a _ _ _ _ _ _ _ _ _ _ _ _ _ _ _ _ _ _ => a

/-- Field accessor: `message.ToNodes`. -/
def Message.ToNodes : Message → List String
  | .mk _ b _ _ _ _ _ _ _ _ _ _ _ _ _ _ _ _ _ => b

/-- Field accessor: `message.FromNode`. -/
def Message.FromNode : Message → String
  | .mk _ _ c _ _ _ _ _ _ _ _ _ _ _ _ _ _ _ _ => c

/-- Field accessor: `message.Method`. -/
def Message.Method : Message → String
  | .mk _ _ _ d _ _ _ _ _ _ _ _ _ _ _ _ _ _ _ => d

/-- Field accessor: `message.MethodArgs`. -/
def Message.MethodArgs : Message → List String
  | .mk _ _ _ _ e _ _ _ _ _ _ _ _ _ _ _ _ _ _ => e

/-- Field accessor: `message.ArgSignature`. -/
def Message.ArgSignature : Message → List Nat
  | .mk _ _ _ _ _ f _ _ _ _ _ _ _ _ _ _ _ _ _ => f

/-- Field accessor: `message.Data`. -/
def Message.Data : Message → Option (List Nat)
  | .mk _ _ _ _ _ _ g _ _ _ _ _ _ _ _ _ _ _ _ => g

/-- Field accessor: `message.ReplyMethod`. -/
def Message.ReplyMethod : Message → String
  | .mk _ _ _ _ _ _ _ h _ _ _ _ _ _ _ _ _ _ _ => h

/-- Field accessor: `message.ReplyMethodArgs`. -/
def Message.ReplyMethodArgs : Message → List String
  | .mk _ _ _ _ _ _ _ _ i _ _ _ _ _ _ _ _ _ _ => i

/-- Field accessor: `message.ACKTimeout`. -/
def Message.ACKTimeout : Message → Nat
  | .mk _ _ _ _ _ _ _ _ _ j _ _ _ _ _ _ _ _ _ => j

/-- Field accessor: `message.Retries`. -/
def Message.Retries : Message → Nat
  | .mk _ _ _ _ _ _ _ _ _ _ k _ _ _ _ _ _ _ _ => k

/-- Field accessor: `message.ReplyACKTimeout`. -/
def Message.ReplyACKTimeout : Message → Nat
  | .mk _ _ _ _ _ _ _ _ _ _ _ l _ _ _ _ _ _ _ => l

/-- Field accessor: `message.ReplyRetries`. -/
def Message.ReplyRetries : Message → Nat
  | .mk _ _ _ _ _ _ _ _ _ _ _ _ m _ _ _ _ _ _ => m

/-- Field accessor: `message.MethodTimeout`. -/
def Message.MethodTimeout : Message → Int
  | .mk _ _ _ _ _ _ _ _ _ _ _ _ _ n _ _ _ _ _ => n

/-- Field accessor: `message.ReplyMethodTimeout`. -/
def Message.ReplyMethodTimeout : Message → Int
  | .mk _ _ _ _ _ _ _ _ _ _ _ _ _ _ o _ _ _ _ => o

/-- Field accessor: `message.Directory`. -/
def Message.Directory : Message → String
  | .mk _ _ _ _ _ _ _ _ _ _ _ _ _ _ _ p _ _ _ => p

/-- Field accessor: `message.FileName`. -/
def Message.FileName : Message → String
  | .mk _ _ _ _ _ _ _ _ _ _ _ _ _ _ _ _ q _ _ => q

/-- Field accessor: `message.IsReply`. -/
def Message.IsReply : Message → Bool
  | .mk _ _ _ _ _ _ _ _ _ _ _ _ _ _ _ _ _ r _ => r

/-- Field accessor: `message.PreviousMessage`. -/
def Message.PreviousMessage : Message → Option Message
  | .mk _ _ _ _ _ _ _ _ _ _ _ _ _ _ _ _ _ _ s => s

/-- Record update `m.Data = d` (all other fields kept). -/
def Message.withData : Message → Option (List Nat) → Message
  | .mk a b c d e f _ h i j k l m n o p q r s, dta =>
      .mk a b c d e f dta h i j k l m n o p q r s

/-- Record update `m.ReplyMethod = rm` (all other fields kept). -/
def Message.withReplyMethod : Message → String → Message
  | .mk a b c d e f g _ i j k l m n o p q r s, rm =>
      .mk a b c d e f g rm i j k l m n o p q r s

/-- The per-node copy made in `checkMessageToNodes`'s fan-out branch:
`m := v; m.ToNodes = nil; m.ToNode = n`. -/
def Message.fanOutTo : Message → String → Message
  | .mk _ _ c d e f g h i j k l m n o p q r s, nd =>
      .mk nd [] c d e f g h i j k l m n o p q r s

/-- The Go zero value of `Message` (every field at its zero). -/
def zeroMessage : Message :=
  .mk "" [] "" "" [] [] none "" [] 0 0 0 0 0 0 "" "" false none

/-- The `Subject` struct of the later era: `ToNode`, `Event`, `Method`. -/
structure Subject : Type where
  ToNode : String
  Event : Event
  Method : String

/-- The `subjectAndMessage` struct: a message paired with the subject
derived for it (Go embeds both fields anonymously). -/
structure subjectAndMessage : Type where
  Subject : Subject
  Message : Message

/-- The Go zero value of `subjectAndMessage`. -/
def zeroSAM : subjectAndMessage :=
  ⟨⟨"", "", ""⟩, zeroMessage⟩

/-- The method table `GetMethodsAvailable` (request handlers are external
side-effecting code; what the claims need from each entry is its presence and
the `Event` its handler's `getKind` returns, so the map is modelled as
`Method → Option Event`).  The entries transcribe the `Methodhandlers` map
literal one to one. -/
def methodsAvailable : String → Option Event
  | "REQInitial" => some EventACK
  | "REQOpProcessList" => some EventACK
  | "REQOpProcessStart" => some EventACK
  | "REQOpProcessStop" => some EventACK
  | "REQCliCommand" => some EventACK
  | "REQCliCommandCont" => some EventACK
  | "REQToConsole" => some EventACK
  | "REQTuiToConsole" => some EventACK
  | "REQToFileAppend" => some EventACK
  | "REQToFile" => some EventACK
  | "REQToFileNACK" => some EventNACK
  | "REQCopyFileFrom" => some EventACK
  | "REQCopyFileTo" => some EventACK
  | "REQHello" => some EventNACK
  | "REQErrorLog" => some EventACK
  | "REQPing" => some EventACK
  | "REQPong" => some EventACK
  | "REQHttpGet" => some EventACK
  | "REQHttpGetScheduled" => some EventACK
  | "REQTailFile" => some EventACK
  | "REQRelay" => some EventACK
  | "REQRelayInitial" => some EventACK
  | "REQPublicKey" => some EventACK
  | "REQKeysRequestUpdate" => some EventNACK
  | "REQKeysDeliverUpdate" => some EventNACK
  | "REQKeysAllow" => some EventACK
  | "REQKeysDelete" => some EventACK
  | "REQAclRequestUpdate" => some EventNACK
  | "REQAclDeliverUpdate" => some EventNACK
  | "REQAclAddCommand" => some EventACK
  | "REQAclDeleteCommand" => some EventACK
  | "REQAclDeleteSource" => some EventACK
  | "REQAclGroupNodesAddNode" => some EventACK
  | "REQAclGroupNodesDeleteNode" => some EventACK
  | "REQAclGroupNodesDeleteGroup" => some EventACK
  | "REQAclGroupCommandsAddCommand" => some EventACK
  | "REQAclGroupCommandsDeleteCommand" => some EventACK
  | "REQAclGroupCommandsDeleteGroup" => some EventACK
  | "REQAclExport" => some EventACK
  | "REQAclImport" => some EventACK
  | "REQTest" => some EventACK
  | _ => none

/-- Function `Method.getHandler`: look the method up in `GetMethodsAvailable`
(a missing key yields the map's zero value, the nil handler — `none` here). -/
def getHandler (method : String) : Option Event :=
  methodsAvailable method

/-- Function `newSubjectAndMessage` (message_readers.go): look up the handler for the
method (nil handler is an error), then reject an empty `ToNode` or an empty
`Method`, and otherwise pair the message with the subject
`(m.ToNode, handler.getKind(), m.Method)`. -/
def newSubjectAndMessage (m : Message) : Except String subjectAndMessage :=
  match getHandler m.Method with
  | none =>
      .error ("error: newSubjectAndMessage: no such request type defined: " ++ m.Method)
  | some kind =>
      if m.ToNode = "" then
        .error "error: newSubjectAndMessage: ToNode empty"
      else if m.Method = "" then
        .error "error: newSubjectAndMessage: Method empty"
      else
        .ok ⟨⟨m.ToNode, kind, m.Method⟩, m⟩

/-- Function `checkMessageToNodes` (message_readers.go): keep a message with a
non-empty `ToNode` as is; expand a message with an empty `ToNode` but a
non-empty `ToNodes` into one message per listed node (with `ToNodes`
nilled out); drop a message with neither field set. -/
def checkMessageToNodes : List Message → List Message
  | [] => []
  | v :: rest =>
      (if v.ToNode ≠ "" then [v]
       else if v.ToNodes ≠ [] then v.ToNodes.map v.fanOutTo
       else [])
      ++ checkMessageToNodes rest

/-- Function `convertBytesToSAMs` (message_readers.go), after the external YAML
unmarshal step (its input here is the parsed `[]Message`): run the
`checkMessageToNodes` normalization, then build a `subjectAndMessage` for
each message, skipping (with an error report) the ones
`newSubjectAndMessage` rejects. -/
def convertBytesToSAMs (msgs : List Message) : List subjectAndMessage :=
  (checkMessageToNodes msgs).filterMap fun m => (newSubjectAndMessage m).toOption

/-- The fan-out copy carries the node it was created for in `ToNode`. -/
theorem fanOutTo_ToNode (v : Message) (n : String) : (v.fanOutTo n).ToNode = n := by
  cases v; rfl

/-- The fan-out copy has its `ToNodes` field nilled out. -/
theorem fanOutTo_ToNodes (v : Message) (n : String) : (v.fanOutTo n).ToNodes = [] := by
  cases v; rfl

/-- Distinct nodes give distinct fan-out copies. -/
theorem fanOutTo_injective (v : Message) : Function.Injective v.fanOutTo := by
  intro x y hxy
  cases v
  simpa [Message.fanOutTo, Message.mk.injEq] using hxy

/-- C6: `checkMessageToNodes` processes a batch message by message; a message
with non-empty `ToNodes` and empty `ToNode` becomes one message per listed
node `n` with `ToNode = n` and `ToNodes = nil` (as many messages as listed
nodes, pairwise distinct when the listed nodes are); a message with non-empty
`ToNode` is kept as is (even when `ToNodes` is also set); a message with
neither field set is dropped. -/
theorem checkMessageToNodes_spec (v : Message) :
    (∀ rest, checkMessageToNodes (v :: rest)
        = checkMessageToNodes [v] ++ checkMessageToNodes rest)
    ∧ (v.ToNode ≠ "" → checkMessageToNodes [v] = [v])
    ∧ (v.ToNode = "" → v.ToNodes ≠ [] →
        checkMessageToNodes [v] = v.ToNodes.map v.fanOutTo
        ∧ (checkMessageToNodes [v]).length = v.ToNodes.length
        ∧ (∀ w ∈ checkMessageToNodes [v],
            w.ToNodes = [] ∧ ∃ n ∈ v.ToNodes, w = v.fanOutTo n ∧ w.ToNode = n)
        ∧ (v.ToNodes.Nodup → (checkMessageToNodes [v]).Nodup))
    ∧ (v.ToNode = "" → v.ToNodes = [] → checkMessageToNodes [v] = []) := by
  refine ⟨?_, ?_, ?_, ?_⟩
  · intro rest
    simp [checkMessageToNodes]
  · intro h
    simp [checkMessageToNodes, h]
  · intro h1 h2
    have hmap : checkMessageToNodes [v] = v.ToNodes.map v.fanOutTo := by
      simp [checkMessageToNodes, h1, h2]
    refine ⟨hmap, ?_, ?_, ?_⟩
    · simp [hmap]
    · intro w hw
      rw [hmap] at hw
      rcases List.mem_map.mp hw with ⟨n, hn, hwn⟩
      exact ⟨hwn ▸ fanOutTo_ToNodes v n, n, hn, hwn.symm, hwn ▸ fanOutTo_ToNode v n⟩
    · intro hnodup
      rw [hmap]
      exact hnodup.map (fanOutTo_injective v)
  · intro h1 h2
    simp [checkMessageToNodes, h1, h2]

/-- A concrete ingress message with `ToNode` empty and two listed `ToNodes`. -/
def msgFanOut : Message :=
  .mk "" ["ship1", "ship2"] "central" "REQCliCommand" [] [] none
    "" [] 5 3 0 0 10 0 "dir" "out.log" false none

/-- Witness for C6 at a concrete fan-out message. -/
theorem checkMessageToNodes_spec_witness :
    checkMessageToNodes [msgFanOut]
      = [msgFanOut.fanOutTo "ship1", msgFanOut.fanOutTo "ship2"] :=
  ((checkMessageToNodes_spec msgFanOut).2.2.1 rfl (by decide)).1

/-- A method with an entry in the table is not the empty string. -/
theorem methodsAvailable_ne_empty {s : String} {ev : Event}
    (h : methodsAvailable s = some ev) : s ≠ "" := by
  intro hs
  rw [hs] at h
  exact Option.noConfusion ((rfl : methodsAvailable "" = none).symm.trans h)

/-- Characterization of a successful `newSubjectAndMessage`. -/
theorem newSubjectAndMessage_ok_iff (m : Message) (sam : subjectAndMessage) :
    newSubjectAndMessage m = .ok sam
      ↔ ∃ ev, methodsAvailable m.Method = some ev ∧ m.ToNode ≠ ""
          ∧ sam = ⟨⟨m.ToNode, ev, m.Method⟩, m⟩ := by
  unfold newSubjectAndMessage getHandler
  cases h : methodsAvailable m.Method with
  | none => simp [h]
  | some ev =>
    by_cases hTo : m.ToNode = ""
    · simp [h, hTo]
    · have hM : ¬ m.Method = "" := methodsAvailable_ne_empty h
      simp only [h, hTo, hM, if_false]
      constructor
      · intro hok
        exact ⟨ev, rfl, hTo, (Except.ok.injEq _ _ ▸ hok).symm⟩
      · rintro ⟨ev', hev', -, hsam⟩
        have : ev' = ev := by
          simpa using hev'.symm
        subst this
        rw [hsam]

/-- C7: `newSubjectAndMessage` fails exactly when the message's `ToNode` is
empty or its `Method` has no entry in the method table; on success the
subject is `(m.ToNode, declared event of m.Method, m.Method)` and the message
is kept unchanged; consequently every `subjectAndMessage` produced by
`convertBytesToSAMs` has a non-empty `ToNode` and a `Method` present in the
method table. -/
theorem newSubjectAndMessage_spec (m : Message) :
    ((∃ e, newSubjectAndMessage m = Except.error e)
      ↔ (m.ToNode = "" ∨ methodsAvailable m.Method = none))
    ∧ (∀ sam, newSubjectAndMessage m = .ok sam →
        sam.Message = m ∧ sam.Subject.ToNode = m.ToNode
        ∧ sam.Subject.Method = m.Method
        ∧ methodsAvailable m.Method = some sam.Subject.Event)
    ∧ (∀ ev, methodsAvailable m.Method = some ev → m.ToNode ≠ "" →
        newSubjectAndMessage m = .ok ⟨⟨m.ToNode, ev, m.Method⟩, m⟩)
    ∧ (∀ msgs sam, sam ∈ convertBytesToSAMs msgs →
        sam.Message.ToNode ≠ "" ∧ methodsAvailable sam.Message.Method ≠ none) := by
  have hok := newSubjectAndMessage_ok_iff m
  refine ⟨⟨fun ⟨e, he⟩ => ?_, fun h => ?_⟩, fun sam hsam => ?_, fun ev hev hTo => ?_,
    fun msgs sam hmem => ?_⟩
  · by_contra hcon
    push_neg at hcon
    obtain ⟨hTo, hTbl⟩ := hcon
    obtain ⟨ev, hev⟩ := Option.ne_none_iff_exists'.mp hTbl
    have := (hok ⟨⟨m.ToNode, ev, m.Method⟩, m⟩).mpr ⟨ev, hev, hTo, rfl⟩
    rw [this] at he
    exact Except.noConfusion he
  · rcases h with hTo | hTbl
    · cases htab : methodsAvailable m.Method with
      | none =>
        unfold newSubjectAndMessage getHandler
        rw [htab]
        exact ⟨_, rfl⟩
      | some ev =>
        unfold newSubjectAndMessage getHandler
        rw [htab]
        simp [hTo]
    · unfold newSubjectAndMessage getHandler
      rw [hTbl]
      exact ⟨_, rfl⟩
  · obtain ⟨ev, hev, hTo, hsam'⟩ := (hok sam).mp hsam
    subst hsam'
    exact ⟨rfl, rfl, rfl, hev⟩
  · exact (newSubjectAndMessage_ok_iff m _).mpr ⟨ev, hev, hTo, rfl⟩
  · unfold convertBytesToSAMs at hmem
    rcases List.mem_filterMap.mp hmem with ⟨m', hm', hsome⟩
    have hokm : newSubjectAndMessage m' = .ok sam := by
      cases hne : newSubjectAndMessage m' with
      | error e => rw [hne] at hsome; exact Option.noConfusion hsome
      | ok a =>
        rw [hne] at hsome
        have ha : a = sam := by simpa [Except.toOption] using hsome
        rw [← ha]
    obtain ⟨ev, hev, hTo, hsam'⟩ := (newSubjectAndMessage_ok_iff m' sam).mp hokm
    subst hsam'
    exact ⟨hTo, fun hc => Option.noConfusion (hev.symm.trans hc)⟩

/-- A concrete well-formed message: `ToNode` set, method in the table. -/
def msgCli : Message :=
  .mk "ship1" [] "central" "REQCliCommand" ["bash", "-c", "tree ./"] [] none
    "REQToFileAppend" [] 10 3 5 3 4 0 "cli" "out.log" false none

/-- Witness for C7 at a concrete valid message. -/
theorem newSubjectAndMessage_spec_witness :
    newSubjectAndMessage msgCli
      = Except.ok ⟨⟨"ship1", EventACK, "REQCliCommand"⟩, msgCli⟩ :=
  (newSubjectAndMessage_spec msgCli).2.2.1 EventACK rfl (by decide)

/-- Model of Go's `filepath.Join`: join the non-empty elements with the
separator (the `Clean` normalization step is irrelevant here because code and
specification feed it identical components). -/
def filepathJoin (parts : List String) : String :=
  String.intercalate "/" (parts.filter fun p => p ≠ "")

/-- Function `selectFileNaming` (the request handlers file): pick the file name and
folder tree for reply data.  The `proc process` argument enters only through
`proc.configuration.SubscribersDataFolder`, passed here as `dataFolder`. -/
def selectFileNaming (message : Message) (dataFolder : String) : String × String :=
  match message.PreviousMessage with
  | none =>
      (message.FileName, filepathJoin [dataFolder, message.Directory, message.ToNode])
  | some prev =>
      if prev.ToNode ≠ "" then
        (prev.FileName, filepathJoin [dataFolder, prev.Directory, prev.ToNode])
      else
        (prev.FileName, filepathJoin [dataFolder, prev.Directory, message.FromNode])

/-- Modelled from the spec: the three-row filename/directory policy table of
§4.H, row by row — (no `PreviousMessage` → message.FileName under
`<dataFolder>/<message.Directory>/<message.ToNode>`), (`PreviousMessage.ToNode`
non-empty → prev.FileName under `<dataFolder>/<prev.Directory>/<prev.ToNode>`),
(`PreviousMessage.ToNode` empty → prev.FileName under
`<dataFolder>/<prev.Directory>/<message.FromNode>`). -/
def selectFileNamingSpecTable (message : Message) (dataFolder : String) : String × String :=
  match message.PreviousMessage with
  | none =>
      (message.FileName, filepathJoin [dataFolder, message.Directory, message.ToNode])
  | some prev =>
      if prev.ToNode = "" then
        (prev.FileName, filepathJoin [dataFolder, prev.Directory, message.FromNode])
      else
        (prev.FileName, filepathJoin [dataFolder, prev.Directory, prev.ToNode])

/-- C10: `selectFileNaming` returns exactly the pair prescribed by the
spec's three-row policy table, for every message and data folder. -/
theorem selectFileNaming_matches_spec (message : Message) (dataFolder : String) :
    selectFileNaming message dataFolder = selectFileNamingSpecTable message dataFolder := by
  unfold selectFileNaming selectFileNamingSpecTable
  cases message.PreviousMessage with
  | none => rfl
  | some prev =>
    by_cases h : prev.ToNode = "" <;> simp [h]

/-- The fields of `nodeAuth` (and the bits of `Configuration` and
`publicKeys` hanging off it) that `verifySignature` can reach:
`configuration.EnableSignatureCheck`, the node's own public signing key
`SignPublicKey`, and the store `publicKeys.keysAndHash.Keys` of public keys
for the nodes this node receives from (present on the struct, whether or not
the function consults it). -/
structure nodeAuth : Type where
  EnableSignatureCheck : Bool
  SignPublicKey : List Nat
  publicKeysKeys : String → Option (List Nat)

/-- Function `argsToString`: join the `MethodArgs` with a single space. -/
def argsToString (args : List String) : String :=
  String.intercalate " " args

/-- Function `verifySignature` (the node-auth file), parametric in the external
`ed25519.Verify` primitive: pass when the check is disabled, pass for any
method other than `REQCliCommand`, and otherwise verify the signature over
the stringified args — against the node's own `SignPublicKey`. -/
def verifySignature (ed25519Verify : List Nat → String → List Nat → Bool)
    (n : nodeAuth) (m : Message) : Bool :=
  if n.EnableSignatureCheck = false then true
  else if m.Method ≠ "REQCliCommand" then true
  else ed25519Verify n.SignPublicKey (argsToString m.MethodArgs) m.ArgSignature

/-- A concrete stand-in for `ed25519.Verify`: accept exactly when the
signature bytes coincide with the key bytes (enough to separate the two
candidate keys). -/
def verifyByKeyMatch (key : List Nat) (_msg : String) (sig : List Nat) : Bool :=
  key = sig

/-- A node auth state whose own signing key `[1]` differs from the key `[2]`
stored for the sender `ship1`. -/
def nodeAuthSplit : nodeAuth :=
  ⟨true, [1], fun nd => if nd = "ship1" then some [2] else none⟩

/-- A `REQCliCommand` message from `ship1` whose `ArgSignature` is valid
under the key stored for `ship1` (but not under the local signing key). -/
def msgSignedByShip1 : Message :=
  .mk "central" [] "ship1" "REQCliCommand" ["ls"] [2] none
    "" [] 0 0 0 0 0 0 "" "" false none

/-- C4: with signature enforcement on and method `REQCliCommand`, the code
verifies against the node's own `SignPublicKey`, not against
`publicKeys.Keys[FromNode]` as specified: a signature valid under the
sender's stored key `[2]` is rejected because the local signing key is
`[1]`. -/
theorem verifySignature_uses_own_key :
    verifySignature verifyByKeyMatch nodeAuthSplit msgSignedByShip1 = false
    ∧ nodeAuthSplit.publicKeysKeys msgSignedByShip1.FromNode = some [2]
    ∧ verifyByKeyMatch [2] (argsToString msgSignedByShip1.MethodArgs)
        msgSignedByShip1.ArgSignature = true
    ∧ nodeAuthSplit.EnableSignatureCheck = true
    ∧ msgSignedByShip1.Method = "REQCliCommand" := by
  refine ⟨?_, rfl, ?_, rfl, rfl⟩ <;> decide

/-- What the broker does at one iteration of the publisher loop:
`SubscribeSync` fails (the code logs and continues, without publishing),
`PublishMsg` fails (the code logs and continues; the reply subscription was
already created), a reply arrives within the message timeout, or
`subReply.NextMsg` times out. -/
inductive NatsAttempt : Type where
  | subscribeFail
  | publishFail
  | replyWithin
  | replyTimeout
  deriving DecidableEq

/-- Counters for the broker operations the loop has performed: successful
`PublishMsg` calls and created reply subscriptions. -/
structure DeliverStats : Type where
  publishes : Nat
  subscribes : Nat
  deriving DecidableEq

/-- How `messageDeliverNats` returned: the message was delivered (reply
received, or fire-and-forget publish done), or abandoned after max retries. -/
inductive DeliverOutcome : Type where
  | delivered (message : Message) (stats : DeliverStats)
  | maxRetries (message : Message) (stats : DeliverStats)

/-- The broker counters of an outcome. -/
def DeliverOutcome.stats : DeliverOutcome → DeliverStats
  | .delivered _ st => st
  | .maxRetries _ st => st

/-- The message an outcome returned with. -/
def DeliverOutcome.message : DeliverOutcome → Message
  | .delivered msg _ => msg
  | .maxRetries msg _ => msg

/-- Function `messageDeliverNats` (process.go): the publisher loop.  Each iteration
gob-encodes the message (an encoding error is only logged), subscribes to
the reply inbox, publishes, and — when the subject kind is `CommandACK` or
`EventACK` — waits up to the message timeout for a reply; on timeout it
increments `retryAttempts` and applies the `Retries` switch (`0` retries
forever, `retryAttempts ≥ Retries` returns, otherwise loop).  For any other
kind the publish alone completes the iteration.  `env i` is the broker's
behavior at loop iteration `i` (for non-ACK kinds a reply value in `env i`
is never consulted: both reply values produce the same result).  `fuel`
bounds the number of iterations observed; `none` means the loop was still
running after `fuel` iterations. -/
def messageDeliverNats (kind : CommandOrEvent) (message : Message)
    (env : Nat → NatsAttempt) :
    Nat → Nat → Nat → DeliverStats → Option DeliverOutcome
  | 0, _, _, _ => none
  | fuel + 1, iter, retryAttempts, stats =>
    match env iter with
    | .subscribeFail =>
        messageDeliverNats kind message env fuel (iter + 1) retryAttempts stats
    | .publishFail =>
        messageDeliverNats kind message env fuel (iter + 1) retryAttempts
          ⟨stats.publishes, stats.subscribes + 1⟩
    | .replyWithin =>
        some (.delivered message ⟨stats.publishes + 1, stats.subscribes + 1⟩)
    | .replyTimeout =>
        if kind = CommandACK ∨ kind = EventACK then
          if message.Retries = 0 then
            messageDeliverNats kind message env fuel (iter + 1) (retryAttempts + 1)
              ⟨stats.publishes + 1, stats.subscribes + 1⟩
          else if retryAttempts + 1 ≥ message.Retries then
            some (.maxRetries message ⟨stats.publishes + 1, stats.subscribes + 1⟩)
          else
            messageDeliverNats kind message env fuel (iter + 1) (retryAttempts + 1)
              ⟨stats.publishes + 1, stats.subscribes + 1⟩
        else
          some (.delivered message ⟨stats.publishes + 1, stats.subscribes + 1⟩)

/-- Invariant of the publisher loop under a healthy broker: starting `a < R`
retry attempts in, any returned outcome performs at most `R - a` further
publishes and returns the unchanged message. -/
theorem deliver_bound {kind : CommandOrEvent} {m : Message} {env : Nat → NatsAttempt} {R : Nat}
    (hk : kind = CommandACK ∨ kind = EventACK)
    (henv : ∀ i, env i = NatsAttempt.replyWithin ∨ env i = NatsAttempt.replyTimeout)
    (hR : m.Retries = R) :
    ∀ fuel iter a stats out, a < R →
      messageDeliverNats kind m env fuel iter a stats = some out →
      out.stats.publishes ≤ stats.publishes + (R - a) ∧ out.message = m := by
  intro fuel
  induction fuel with
  | zero =>
    intro iter a stats out _ hrun
    simp [messageDeliverNats] at hrun
  | succ f ih =>
    intro iter a stats out ha hrun
    rcases henv iter with he | he
    · rw [messageDeliverNats, he] at hrun
      simp only [Option.some.injEq] at hrun
      subst hrun
      exact ⟨by simp [DeliverOutcome.stats]; omega, rfl⟩
    · rw [messageDeliverNats, he, if_pos hk, hR] at hrun
      have hR0 : ¬ (R = 0) := by omega
      rw [if_neg hR0] at hrun
      by_cases hge : a + 1 ≥ R
      · rw [if_pos hge] at hrun
        simp only [Option.some.injEq] at hrun
        subst hrun
        exact ⟨by simp [DeliverOutcome.stats]; omega, rfl⟩
      · rw [if_neg hge] at hrun
        obtain ⟨h1, h2⟩ :=
          ih (iter + 1) (a + 1) ⟨stats.publishes + 1, stats.subscribes + 1⟩ out (by omega) hrun
        exact ⟨by simp at h1; omega, h2⟩

/-- When every reply wait times out, the loop returns `maxRetries` after
exactly the remaining `R - a` iterations, one publish and one subscription
per iteration. -/
theorem deliver_all_timeout {kind : CommandOrEvent} {m : Message} {env : Nat → NatsAttempt} {R : Nat}
    (hk : kind = CommandACK ∨ kind = EventACK)
    (henv : ∀ i, env i = NatsAttempt.replyTimeout)
    (hR : m.Retries = R) :
    ∀ k a iter stats, a + k = R → 1 ≤ k →
      messageDeliverNats kind m env k iter a stats
        = some (.maxRetries m ⟨stats.publishes + k, stats.subscribes + k⟩) := by
  intro k
  induction k with
  | zero =>
    intro a iter stats _ h1
    exact absurd h1 (by omega)
  | succ kk ih =>
    intro a iter stats hsum _
    rw [messageDeliverNats, henv iter, if_pos hk, hR]
    have hR0 : ¬ (R = 0) := by omega
    rw [if_neg hR0]
    by_cases hkk : kk = 0
    · subst hkk
      have hge : a + 1 ≥ R := by omega
      rw [if_pos hge]
    · have hge : ¬ (a + 1 ≥ R) := by omega
      rw [if_neg hge]
      have e1 : stats.publishes + (kk + 1) = stats.publishes + 1 + kk := by omega
      have e2 : stats.subscribes + (kk + 1) = stats.subscribes + 1 + kk := by omega
      rw [e1, e2]
      exact ih (a + 1) (iter + 1) ⟨stats.publishes + 1, stats.subscribes + 1⟩ (by omega) (by omega)

/-- With `Retries = 0` and every reply wait timing out, the loop never
returns. -/
theorem deliver_unlimited {kind : CommandOrEvent} {m : Message} {env : Nat → NatsAttempt}
    (hk : kind = CommandACK ∨ kind = EventACK)
    (h0 : m.Retries = 0)
    (henv : ∀ i, env i = NatsAttempt.replyTimeout) :
    ∀ fuel iter a stats, messageDeliverNats kind m env fuel iter a stats = none := by
  intro fuel
  induction fuel with
  | zero => intro iter a stats; rfl
  | succ f ih =>
    intro iter a stats
    rw [messageDeliverNats, henv iter, if_pos hk, h0, if_pos rfl]
    exact ih (iter + 1) (a + 1) ⟨stats.publishes + 1, stats.subscribes + 1⟩

/-- C1: for an ACK-kind subject under a healthy broker, a message with
`Retries = R ≥ 1` is published at most `R` times and returned unchanged,
exactly once when the first reply arrives within the timeout; the `R`-th
consecutive timeout makes the loop return `maxRetries` (after exactly `R`
publishes) with the same message; and a message with `Retries = 0` keeps
retrying without bound when every reply times out. -/
theorem messageDeliverNats_ack_retry_spec (kind : CommandOrEvent) (m : Message)
    (env : Nat → NatsAttempt)
    (hk : kind = CommandACK ∨ kind = EventACK)
    (henv : ∀ i, env i = NatsAttempt.replyWithin ∨ env i = NatsAttempt.replyTimeout) :
    (∀ R, m.Retries = R → 1 ≤ R →
      (∀ fuel out, messageDeliverNats kind m env fuel 0 0 ⟨0, 0⟩ = some out →
          out.stats.publishes ≤ R ∧ out.message = m)
      ∧ (env 0 = NatsAttempt.replyWithin →
          messageDeliverNats kind m env 1 0 0 ⟨0, 0⟩
            = some (.delivered m ⟨1, 1⟩))
      ∧ ((∀ i, env i = NatsAttempt.replyTimeout) →
          messageDeliverNats kind m env R 0 0 ⟨0, 0⟩
            = some (.maxRetries m ⟨R, R⟩)))
    ∧ (m.Retries = 0 → (∀ i, env i = NatsAttempt.replyTimeout) →
        ∀ fuel, messageDeliverNats kind m env fuel 0 0 ⟨0, 0⟩ = none) := by
  constructor
  · intro R hR hR1
    refine ⟨?_, ?_, ?_⟩
    · intro fuel out hrun
      have := deliver_bound hk henv hR fuel 0 0 ⟨0, 0⟩ out (by omega) hrun
      simpa using this
    · intro h0
      rw [messageDeliverNats, h0]
    · intro hto
      have := deliver_all_timeout hk hto hR R 0 0 ⟨0, 0⟩ (by omega) (by omega)
      simpa using this
  · intro h0 hto fuel
    exact deliver_unlimited hk h0 hto fuel 0 0 ⟨0, 0⟩

/-- Witness for C1: the concrete `REQCliCommand` message (`Retries = 3`) on
an `EventACK` subject, with every reply timing out, is abandoned as
`maxRetries` after exactly 3 publishes. -/
theorem messageDeliverNats_ack_retry_spec_witness :
    messageDeliverNats EventACK msgCli (fun _ => NatsAttempt.replyTimeout) 3 0 0 ⟨0, 0⟩
      = some (.maxRetries msgCli ⟨3, 3⟩) :=
  ((messageDeliverNats_ack_retry_spec EventACK msgCli (fun _ => NatsAttempt.replyTimeout)
      (Or.inr rfl) (fun _ => Or.inr rfl)).1 3 rfl (by omega)).2.2 (fun _ => rfl)

/-- C2 (amended): for a NACK-kind subject the publisher loop performs
exactly one broker publish and creates exactly one reply-inbox subscription
(which it never consumes: the result does not depend on whether a reply
would have arrived), returning immediately after the publish. -/
theorem messageDeliverNats_nack_spec (kind : CommandOrEvent) (m : Message)
    (env : Nat → NatsAttempt)
    (hk : kind = CommandNACK ∨ kind = EventNACK)
    (henv0 : env 0 = NatsAttempt.replyWithin ∨ env 0 = NatsAttempt.replyTimeout) :
    messageDeliverNats kind m env 1 0 0 ⟨0, 0⟩ = some (.delivered m ⟨1, 1⟩) := by
  have hnack : ¬ (kind = CommandACK ∨ kind = EventACK) := by
    rcases hk with h | h <;> subst h <;> decide
  rcases henv0 with h0 | h0
  · rw [messageDeliverNats, h0]
  · rw [messageDeliverNats, h0, if_neg hnack]

/-- A concrete fire-and-forget message: `REQHello` is declared `EventNACK`. -/
def msgHello : Message :=
  .mk "central" [] "ship1" "REQHello" [] [] none
    "" [] 0 0 0 0 0 0 "" "" false none

/-- Witness for C2 at the concrete `REQHello` message on an `EventNACK`
subject. -/
theorem messageDeliverNats_nack_spec_witness :
    messageDeliverNats EventNACK msgHello (fun _ => NatsAttempt.replyWithin) 1 0 0 ⟨0, 0⟩
      = some (.delivered msgHello ⟨1, 1⟩) :=
  messageDeliverNats_nack_spec EventNACK msgHello (fun _ => NatsAttempt.replyWithin)
    (Or.inr rfl) (Or.inl rfl)

/-- Counterexample for C2 as stated: delivering the concrete `REQHello`
message on an `EventNACK` subject creates one reply-inbox subscription
(the loop calls `SubscribeSync` before checking the subject kind), not
zero. -/
theorem messageDeliverNats_nack_counterexample :
    messageDeliverNats EventNACK msgHello (fun _ => NatsAttempt.replyTimeout) 1 0 0 ⟨0, 0⟩
      = some (.delivered msgHello ⟨1, 1⟩)
    ∧ (DeliverStats.mk 1 1).subscribes ≠ 0 := by
  constructor
  · rw [messageDeliverNats]
    have hnack : ¬ ((EventNACK : String) = CommandACK ∨ (EventNACK : String) = EventACK) := by
      decide
    rw [if_neg hnack]
  · decide

/-- An observable step of `subscriberHandler`: publishing a payload on the
reply subject, invoking the method handler, or the testing error the ACK
branch always sends to the error kernel. -/
inductive SubAction : Type where
  | publishReply (subject : String) (payload : String)
  | invokeHandler (method : String)
  | errSendTesting
  deriving DecidableEq

/-- How one `subscriberHandler` invocation ended: normally, with its trace of
actions, or in a runtime panic (the trace holds the actions before the
panic). -/
inductive SubResult : Type where
  | done (actions : List SubAction)
  | panicked (actions : List SubAction)
  deriving DecidableEq

/-- Function `subscriberHandler` (process.go), after the external gob decode.  The
method table is `s.methodsAvailable.CheckIfExists`, modelled as a partial
map to handler functions (a handler returns its output bytes and whether it
errored; handler errors are only logged).  For ACK kinds: the missing-method
lookup only logs, `out` starts as `"not allowed from <FromNode>"`, the
handler runs only when `message.FromNode` or `"*"` is in
`allowedReceivers` — and when it runs while the lookup failed, the call on
the nil handler interface panics — then `out` is published on `msg.Reply`
and the testing error is sent to the error kernel.  For NACK kinds the
handler is called unconditionally (again panicking on a nil handler) and
nothing is published.  Any other kind only logs. -/
def subscriberHandler (table : String → Option (Message → String × Bool))
    (kind : CommandOrEvent) (allowedReceivers : List String)
    (replySubject : String) (message : Message) : SubResult :=
  if kind = CommandACK ∨ kind = EventACK then
    if message.FromNode ∈ allowedReceivers ∨ "*" ∈ allowedReceivers then
      match table message.Method with
      | none => .panicked []
      | some h =>
          .done [.invokeHandler message.Method,
                 .publishReply replySubject (h message).1,
                 .errSendTesting]
    else
      .done [.publishReply replySubject ("not allowed from " ++ message.FromNode),
             .errSendTesting]
  else if kind = CommandNACK ∨ kind = EventNACK then
    match table message.Method with
    | none => .panicked []
    | some _ => .done [.invokeHandler message.Method]
  else
    .done []

/-- C3 (amended): when neither the sender nor `"*"` is in
`allowedReceivers`, an ACK-kind delivery skips the handler and publishes
`"not allowed from <FromNode>"` on the reply subject; a NACK-kind delivery
is *not* access-checked: its handler is invoked regardless, with nothing
published. -/
theorem subscriberHandler_not_allowed (table : String → Option (Message → String × Bool))
    (kind : CommandOrEvent) (allowed : List String) (rs : String) (m : Message)
    (hnot : ¬ (m.FromNode ∈ allowed ∨ "*" ∈ allowed)) :
    (kind = CommandACK ∨ kind = EventACK →
        subscriberHandler table kind allowed rs m
          = .done [.publishReply rs ("not allowed from " ++ m.FromNode), .errSendTesting])
    ∧ (kind = CommandNACK ∨ kind = EventNACK → ∀ h, table m.Method = some h →
        subscriberHandler table kind allowed rs m = .done [.invokeHandler m.Method]) := by
  constructor
  · intro hack
    unfold subscriberHandler
    rw [if_pos hack, if_neg hnot]
  · intro hnk h hh
    have hnack : ¬ (kind = CommandACK ∨ kind = EventACK) := by
      rcases hnk with hcase | hcase <;> subst hcase <;> decide
    unfold subscriberHandler
    rw [if_neg hnack, if_pos hnk, hh]

/-- A method table that only knows `REQPing` (handler answers `"pong"`). -/
def pingOnlyTable : String → Option (Message → String × Bool) :=
  fun s => if s = "REQPing" then some (fun _ => ("pong", false)) else none

/-- A ping message from a node that is not in anyone's allow list. -/
def msgPingFromBad : Message :=
  .mk "ship1" [] "badnode" "REQPing" [] [] none
    "" [] 0 0 0 0 0 0 "" "" false none

/-- Witness for C3: the ACK-kind rejection payload for the concrete sender
`badnode` against an allow list holding only `central`. -/
theorem subscriberHandler_not_allowed_witness :
    subscriberHandler pingOnlyTable EventACK ["central"] "reply.x" msgPingFromBad
      = .done [.publishReply "reply.x" "not allowed from badnode", .errSendTesting] :=
  (subscriberHandler_not_allowed pingOnlyTable EventACK ["central"] "reply.x" msgPingFromBad
    (by decide)).1 (Or.inr rfl)

/-- Counterexample for C3 as stated: a NACK-kind delivery from `badnode`
with an *empty* allow list still invokes the method handler — the message is
not dropped. -/
theorem subscriberHandler_nack_invokes_counterexample :
    subscriberHandler pingOnlyTable EventNACK [] "reply.x" msgPingFromBad
      = .done [.invokeHandler "REQPing"]
    ∧ ¬ (msgPingFromBad.FromNode ∈ ([] : List String) ∨ "*" ∈ ([] : List String)) := by
  constructor
  · decide
  · decide

/-- A message whose method has no entry in the method table. -/
def msgUnknownMethod : Message :=
  .mk "ship1" [] "central" "REQNotDefined" [] [] none
    "" [] 0 0 0 0 0 0 "" "" false none

/-- C5: a delivered message with an unknown method does *not* complete the
dispatch path cleanly: after the failed lookup only logs, the code calls
`handler` on the nil method-handler interface and the goroutine panics —
on the ACK path (sender allowed via `"*"`) before any reply is published,
and on the NACK path unconditionally. -/
theorem subscriberHandler_unknown_method_panics :
    subscriberHandler pingOnlyTable EventACK ["*"] "reply.x" msgUnknownMethod
      = .panicked []
    ∧ subscriberHandler pingOnlyTable EventNACK ["central"] "reply.x" msgUnknownMethod
      = .panicked []
    ∧ pingOnlyTable msgUnknownMethod.Method = none := by
  refine ⟨by decide, by decide, rfl⟩

/-- The value of `message.ReplyMethod` after the defaulting step of `newReplyMessage`
(`REQToFileAppend` when unset). -/
def effectiveReplyMethod (m : Message) : String :=
  if m.ReplyMethod = "" then "REQToFileAppend" else m.ReplyMethod

/-- The local `message` value inside `newReplyMessage` after the mutation
`message.ReplyMethod = REQToFileAppend` that runs when the field is unset. -/
def defaultedReply (m : Message) : Message :=
  if m.ReplyMethod = "" then m.withReplyMethod "REQToFileAppend" else m

/-- The `newMsg` literal built inside `newReplyMessage` from the (already
defaulted) original `message` and the handler output: listed fields are
`ToNode: message.FromNode`, `FromNode: message.ToNode`, `Data: outData`,
`Method: message.ReplyMethod`, `MethodArgs: message.ReplyMethodArgs`,
`MethodTimeout: message.ReplyMethodTimeout`, `IsReply: true`,
`ACKTimeout: message.ReplyACKTimeout`, `Retries: message.ReplyRetries`,
`Directory`, `FileName`, and `PreviousMessage: &thisMsg` where `thisMsg` is
`message` with `Data` nilled; every unlisted field is the Go zero value. -/
def newReplyMsgRecord (message : Message) (outData : Option (List Nat)) : Message :=
  .mk
    message.FromNode
    []
    message.ToNode
    message.ReplyMethod
    message.ReplyMethodArgs
    []
    outData
    ""
    []
    message.ReplyACKTimeout
    message.ReplyRetries
    0
    0
    message.ReplyMethodTimeout
    0
    message.Directory
    message.FileName
    true
    (some (message.withData none))

/-- Function `newReplyMessage` (the request handlers file): return without sending
anything when `ReplyMethod` is the sentinel `"REQNone"`; otherwise default
the reply method, build the reply message, wrap it through
`newSubjectAndMessage` — and send the resulting sam to the ring buffer
unconditionally, i.e. the *zero* sam when construction failed (the error is
only reported).  The returned option is the single sam sent, `none` when
nothing is sent. -/
def newReplyMessage (m : Message) (outData : Option (List Nat)) : Option subjectAndMessage :=
  if m.ReplyMethod = "REQNone" then none
  else
    some (match newSubjectAndMessage (newReplyMsgRecord (defaultedReply m) outData) with
          | .ok sam => sam
          | .error _ => zeroSAM)

/-- Update `withReplyMethod` only touches the `ReplyMethod` field. -/
theorem withReplyMethod_fields (m : Message) (rm : String) :
    (m.withReplyMethod rm).ReplyMethod = rm
    ∧ (m.withReplyMethod rm).ToNode = m.ToNode
    ∧ (m.withReplyMethod rm).FromNode = m.FromNode
    ∧ (m.withReplyMethod rm).ReplyMethodArgs = m.ReplyMethodArgs
    ∧ (m.withReplyMethod rm).ReplyACKTimeout = m.ReplyACKTimeout
    ∧ (m.withReplyMethod rm).ReplyRetries = m.ReplyRetries
    ∧ (m.withReplyMethod rm).ReplyMethodTimeout = m.ReplyMethodTimeout
    ∧ (m.withReplyMethod rm).Directory = m.Directory
    ∧ (m.withReplyMethod rm).FileName = m.FileName := by
  cases m
  exact ⟨rfl, rfl, rfl, rfl, rfl, rfl, rfl, rfl, rfl⟩

/-- Step `defaultedReply` realizes `effectiveReplyMethod` and keeps the other
fields of interest. -/
theorem defaultedReply_fields (m : Message) :
    (defaultedReply m).ReplyMethod = effectiveReplyMethod m
    ∧ (defaultedReply m).ToNode = m.ToNode
    ∧ (defaultedReply m).FromNode = m.FromNode
    ∧ (defaultedReply m).ReplyMethodArgs = m.ReplyMethodArgs
    ∧ (defaultedReply m).ReplyACKTimeout = m.ReplyACKTimeout
    ∧ (defaultedReply m).ReplyRetries = m.ReplyRetries
    ∧ (defaultedReply m).ReplyMethodTimeout = m.ReplyMethodTimeout
    ∧ (defaultedReply m).Directory = m.Directory
    ∧ (defaultedReply m).FileName = m.FileName := by
  unfold defaultedReply effectiveReplyMethod
  by_cases h : m.ReplyMethod = ""
  · simpa [h] using withReplyMethod_fields m "REQToFileAppend"
  · simp [h]

/-- C8 (amended): when `m.ReplyMethod` is not the sentinel `REQNone`,
`m.FromNode` is non-empty and the effective reply method exists in the
method table, `newReplyMessage` sends exactly one message, with
`ToNode = m.FromNode`, `FromNode = m.ToNode`, `Method` the effective reply
method (`m.ReplyMethod`, defaulting to `REQToFileAppend` when empty),
`MethodArgs`, `ACKTimeout`, `Retries`, `MethodTimeout` taken from the
corresponding `Reply*` fields, `Directory` and `FileName` copied,
`IsReply = true`, and `PreviousMessage` a non-nil copy of the (defaulted)
original with its `Data` nilled — in particular exactly `m` with `Data`
nilled whenever `m.ReplyMethod` was explicitly set. -/
theorem newReplyMessage_spec (m : Message) (outData : Option (List Nat)) (ev : Event)
    (hNone : m.ReplyMethod ≠ "REQNone")
    (hFrom : m.FromNode ≠ "")
    (hTbl : methodsAvailable (effectiveReplyMethod m) = some ev) :
    newReplyMessage m outData
      = some ⟨⟨m.FromNode, ev, effectiveReplyMethod m⟩,
              newReplyMsgRecord (defaultedReply m) outData⟩
    ∧ (newReplyMsgRecord (defaultedReply m) outData).ToNode = m.FromNode
    ∧ (newReplyMsgRecord (defaultedReply m) outData).FromNode = m.ToNode
    ∧ (newReplyMsgRecord (defaultedReply m) outData).Method = effectiveReplyMethod m
    ∧ (newReplyMsgRecord (defaultedReply m) outData).MethodArgs = m.ReplyMethodArgs
    ∧ (newReplyMsgRecord (defaultedReply m) outData).ACKTimeout = m.ReplyACKTimeout
    ∧ (newReplyMsgRecord (defaultedReply m) outData).Retries = m.ReplyRetries
    ∧ (newReplyMsgRecord (defaultedReply m) outData).MethodTimeout = m.ReplyMethodTimeout
    ∧ (newReplyMsgRecord (defaultedReply m) outData).Directory = m.Directory
    ∧ (newReplyMsgRecord (defaultedReply m) outData).FileName = m.FileName
    ∧ (newReplyMsgRecord (defaultedReply m) outData).IsReply = true
    ∧ (newReplyMsgRecord (defaultedReply m) outData).PreviousMessage
        = some ((defaultedReply m).withData none)
    ∧ (m.ReplyMethod ≠ "" →
        defaultedReply m = m ∧ effectiveReplyMethod m = m.ReplyMethod) := by
  obtain ⟨hrm, hto, hfrom, hargs, hat, hrr, hmt, hdir, hfn⟩ := defaultedReply_fields m
  have hMethod : (newReplyMsgRecord (defaultedReply m) outData).Method
      = effectiveReplyMethod m := hrm
  have hToNode : (newReplyMsgRecord (defaultedReply m) outData).ToNode
      = m.FromNode := hfrom
  refine ⟨?_, hToNode, hto, hMethod, hargs, hat, hrr, hmt, hdir, hfn, rfl, rfl, ?_⟩
  · unfold newReplyMessage
    rw [if_neg hNone]
    have hok :
        newSubjectAndMessage (newReplyMsgRecord (defaultedReply m) outData)
          = .ok ⟨⟨(newReplyMsgRecord (defaultedReply m) outData).ToNode, ev,
                  (newReplyMsgRecord (defaultedReply m) outData).Method⟩,
                 newReplyMsgRecord (defaultedReply m) outData⟩ := by
      refine (newSubjectAndMessage_spec (newReplyMsgRecord (defaultedReply m) outData)).2.2.1
        ev ?_ ?_
      · rw [hMethod]
        exact hTbl
      · rw [hToNode]
        exact hFrom
    rw [hok, hToNode, hMethod]
  · intro hset
    constructor
    · unfold defaultedReply
      rw [if_neg hset]
    · unfold effectiveReplyMethod
      rw [if_neg hset]

/-- Witness for C8: the concrete `msgCli` (`ReplyMethod` explicitly
`REQToFileAppend`, `FromNode` = `central`) produces exactly one reply sam,
addressed back to `central`. -/
theorem newReplyMessage_spec_witness :
    newReplyMessage msgCli (some [104, 105])
      = some ⟨⟨"central", EventACK, "REQToFileAppend"⟩,
              newReplyMsgRecord (defaultedReply msgCli) (some [104, 105])⟩ :=
  (newReplyMessage_spec msgCli (some [104, 105]) EventACK (by decide) (by decide) rfl).1

/-- A message whose `FromNode` is empty but whose `ReplyMethod` is set. -/
def msgNoFrom : Message :=
  .mk "ship1" [] "" "REQCliCommand" [] [] none
    "REQToFileAppend" [] 0 0 0 0 0 0 "" "" false none

/-- A message with an unset (empty) `ReplyMethod`. -/
def msgEmptyReply : Message :=
  .mk "ship1" [] "central" "REQCliCommand" [] [] none
    "" [] 0 0 0 0 0 0 "" "" false none

/-- Counterexample for C8 as stated: (a) with `FromNode` empty (and
`ReplyMethod ≠ REQNone`) the enqueued sam is the *zero* value — in
particular its message has `IsReply = false` and no `PreviousMessage` —
because the failed `newSubjectAndMessage` is only reported and the zero sam
is still sent; (b) with `ReplyMethod` unset, the stored `PreviousMessage` is
not a plain data-stripped copy of `m`: its `ReplyMethod` was rewritten to
`REQToFileAppend` while `m.ReplyMethod` is `""`. -/
theorem newReplyMessage_counterexample :
    (newReplyMessage msgNoFrom none = some zeroSAM
      ∧ zeroSAM.Message.IsReply = false
      ∧ zeroSAM.Message.PreviousMessage = none
      ∧ msgNoFrom.ReplyMethod ≠ "REQNone")
    ∧ ((newReplyMessage msgEmptyReply none).map
          (fun sam => sam.Message.PreviousMessage.map Message.ReplyMethod)
        = some (some "REQToFileAppend")
      ∧ msgEmptyReply.ReplyMethod = "") := by
  refine ⟨⟨rfl, rfl, rfl, by decide⟩, rfl, rfl⟩

/-- Result of the blank-`FromNode` removal loop in `readStartupFolder`:
the slice left when the loop ends, or a runtime panic (index out of range). -/
inductive RemoveResult : Type where
  | ok (sams : List subjectAndMessage)
  | panicked

/-- The removal loop of `readStartupFolder`, verbatim:
`for i := range sams` fixes the iteration count to the *original* length,
the body indexes the *current* slice (`sams[i]`, panicking when `i` is out
of range), removes the element when its `FromNode` is empty
(`sams = append(sams[:i], sams[i+1:]...)`, i.e. `eraseIdx i`), and breaks
when `i == len(sams)-1` against the current length.  `gas` is the number of
range iterations left. -/
def removeBlankFromGo (gas : Nat) (i : Nat) (cur : List subjectAndMessage) : RemoveResult :=
  match gas with
  | 0 => .ok cur
  | g + 1 =>
    if hi : i < cur.length then
      let m := cur.get ⟨i, hi⟩
      let next := if m.Message.FromNode = "" then cur.eraseIdx i else cur
      if (i : Int) = (next.length : Int) - 1 then .ok next
      else removeBlankFromGo g (i + 1) next
    else .panicked

/-- The blank-`FromNode` filtering step of `readStartupFolder` applied to
one parsed batch. -/
def removeBlankFrom (sams : List subjectAndMessage) : RemoveResult :=
  removeBlankFromGo sams.length 0 sams

/-- An observable step of the startup handling loop: the error report for a
method missing from the table, a direct local handler invocation, the error
report for a failed handler — and a broker publish, which the loop never
performs (the constructor exists so that its absence is expressible). -/
inductive StartupAction : Type where
  | errSendNoMethod (m : Message)
  | invokeHandler (m : Message)
  | errSendHandlerFailed (m : Message)
  | publishBroker

/-- The handling loop of `readStartupFolder` over the filtered batch: look
the method up (missing → error report, skip), invoke the handler directly
and locally (`mh.handler(p, sams[i].Message, s.nodeName)`), report a
handler error.  No broker publish occurs anywhere in the loop.  The handler
table maps a method to its handler, modelled as `Message → Bool` (whether
the handler returned an error). -/
def handleStartupSams (table : String → Option (Message → Bool)) :
    List subjectAndMessage → List StartupAction
  | [] => []
  | sam :: rest =>
    match table sam.Message.Method with
    | none => .errSendNoMethod sam.Message :: handleStartupSams table rest
    | some h =>
        if h sam.Message then
          .invokeHandler sam.Message :: .errSendHandlerFailed sam.Message
            :: handleStartupSams table rest
        else
          .invokeHandler sam.Message :: handleStartupSams table rest

/-- One parsed startup file batch through `readStartupFolder`'s pipeline:
filter the blank-`FromNode` messages, then handle the remainder locally.
`none` models the goroutine dying in the removal loop's index panic. -/
def readStartupBatch (table : String → Option (Message → Bool))
    (sams : List subjectAndMessage) : Option (List StartupAction) :=
  match removeBlankFrom sams with
  | .panicked => none
  | .ok remaining => some (handleStartupSams table remaining)

/-- A startup-folder sam whose message has an empty `FromNode` (first one). -/
def samBlankFrom1 : subjectAndMessage :=
  ⟨⟨"ship1", EventACK, "REQCliCommand"⟩,
   .mk "ship1" [] "" "REQCliCommand" ["date"] [] none
     "" [] 0 0 0 0 0 0 "" "" false none⟩

/-- A second startup-folder sam with an empty `FromNode`. -/
def samBlankFrom2 : subjectAndMessage :=
  ⟨⟨"ship1", EventACK, "REQCliCommand"⟩,
   .mk "ship1" [] "" "REQCliCommand" ["uptime"] [] none
     "" [] 0 0 0 0 0 0 "" "" false none⟩

/-- A third startup-folder sam with an empty `FromNode`. -/
def samBlankFrom3 : subjectAndMessage :=
  ⟨⟨"ship1", EventACK, "REQCliCommand"⟩,
   .mk "ship1" [] "" "REQCliCommand" ["id"] [] none
     "" [] 0 0 0 0 0 0 "" "" false none⟩

/-- A handler table that knows every method and whose handlers succeed. -/
def startupTableAll : String → Option (Message → Bool) :=
  fun _ => some (fun _ => false)

/-- C9: the blank-`FromNode` filter removes elements while iterating, so it
does not remove them all: on a batch of two blank-`FromNode` messages the
second survives and is handed to its method handler (while the claim says
every such message is removed and reported before any handling); on a batch
of three the loop indexes past the shrunken slice and panics.  The handling
loop itself performs no broker publish. -/
theorem readStartupFolder_blank_from_bug :
    readStartupBatch startupTableAll [samBlankFrom1, samBlankFrom2]
      = some [.invokeHandler samBlankFrom2.Message]
    ∧ samBlankFrom2.Message.FromNode = ""
    ∧ readStartupBatch startupTableAll [samBlankFrom1, samBlankFrom2, samBlankFrom3]
      = none
    ∧ (∀ a ∈ [StartupAction.invokeHandler samBlankFrom2.Message],
        a ≠ StartupAction.publishBroker) := by
  refine ⟨rfl, rfl, rfl, ?_⟩
  intro a ha
  rw [List.mem_singleton.mp ha]
  intro hcon
  exact StartupAction.noConfusion hcon
